import Mathlib

/-!
Shallow embedding of the register-access core of the `dc-load-control-loop-rs`
repository (an SPI driver for the AD7175-2 delta-sigma ADC).

Sources embedded here:
* `src/adc/mod.rs` — the `bitfield_enum!` closed enumerations and the `ADC`
  transport framer (`ADC::read` / `ADC::write`).
* `src/adc/register.rs` — the `register!` / `rw_register!` /
  `multi_rw_register!` bitfield codecs built on the `bitfield_struct` crate
  with `order = msb`, together with the big-endian 3-byte helpers
  `from_u32` / `into_u32`.

Modelling conventions:
* Machine integers (`u8`/`u16`/`u32`) are `Nat`, with explicit `% 256`,
  `&&&` masks and shifts exactly where the source truncates or masks.
* The crate `bitfield_struct` with `order = msb` lays fields out from the
  most significant bit of the base integer downward, in declaration order;
  each register below records the resulting shift/mask arithmetic of the
  generated accessors, acting on the raw accumulator (a `Nat`).
* The repository compiles only for `esp_hal` targets (esp32 family), which
  are little-endian, so `u16::to_ne_bytes` / `u16::from_ne_bytes` and the
  `u32` variants are embedded as little-endian conversions.
* A Rust panic (the `bitfield_enum!` `from_bits` wildcard arm) is modelled
  as `Option.none`; transport failures are `Except.error`.
-/

namespace DcLoad

/-! ### Closed enumerations (`src/adc/mod.rs`, `bitfield_enum!`)

Each enumeration has `into_bits` (the declared discriminant, `self as u8`)
and `from_bits` (the `match` over declared discriminants whose wildcard arm
aborts; modelled as `none`). -/

inductive Channel | Ch0 | Ch1 | Ch2 | Ch3
deriving DecidableEq, Fintype

def Channel.into_bits : Channel → Nat
  | .Ch0 => 0x00
  | .Ch1 => 0x01
  | .Ch2 => 0x02
  | .Ch3 => 0x03

def Channel.from_bits : Nat → Option Channel
  | 0x00 => some .Ch0
  | 0x01 => some .Ch1
  | 0x02 => some .Ch2
  | 0x03 => some .Ch3
  | _ => none

inductive Delay
  | ZeroMicroseconds | FourMicroseconds | SixteenMicroseconds
  | FortyMicroseconds | OneHundredMicroseconds | TwoHundredMicroseconds
  | FiveHundredMicroseconds | OneMillisecond
deriving DecidableEq, Fintype

def Delay.into_bits : Delay → Nat
  | .ZeroMicroseconds => 0x00
  | .FourMicroseconds => 0x01
  | .SixteenMicroseconds => 0x02
  | .FortyMicroseconds => 0x03
  | .OneHundredMicroseconds => 0x04
  | .TwoHundredMicroseconds => 0x05
  | .FiveHundredMicroseconds => 0x06
  | .OneMillisecond => 0x07

def Delay.from_bits : Nat → Option Delay
  | 0x00 => some .ZeroMicroseconds
  | 0x01 => some .FourMicroseconds
  | 0x02 => some .SixteenMicroseconds
  | 0x03 => some .FortyMicroseconds
  | 0x04 => some .OneHundredMicroseconds
  | 0x05 => some .TwoHundredMicroseconds
  | 0x06 => some .FiveHundredMicroseconds
  | 0x07 => some .OneMillisecond
  | _ => none

inductive Mode
  | ContinuousConversion | SingleConversion | Standby | PowerDown
  | InternalOffsetCalibration | SystemOffsetCalibration | SystemGainCalibration
deriving DecidableEq, Fintype

def Mode.into_bits : Mode → Nat
  | .ContinuousConversion => 0x00
  | .SingleConversion => 0x01
  | .Standby => 0x02
  | .PowerDown => 0x03
  | .InternalOffsetCalibration => 0x04
  | .SystemOffsetCalibration => 0x06
  | .SystemGainCalibration => 0x07

def Mode.from_bits : Nat → Option Mode
  | 0x00 => some .ContinuousConversion
  | 0x01 => some .SingleConversion
  | 0x02 => some .Standby
  | 0x03 => some .PowerDown
  | 0x04 => some .InternalOffsetCalibration
  | 0x06 => some .SystemOffsetCalibration
  | 0x07 => some .SystemGainCalibration
  | _ => none

inductive ClockSource | Internal | InternalWithOutput | External | ExternalCrystal
deriving DecidableEq, Fintype

def ClockSource.into_bits : ClockSource → Nat
  | .Internal => 0x00
  | .InternalWithOutput => 0x01
  | .External => 0x02
  | .ExternalCrystal => 0x03

def ClockSource.from_bits : Nat → Option ClockSource
  | 0x00 => some .Internal
  | 0x01 => some .InternalWithOutput
  | 0x02 => some .External
  | 0x03 => some .ExternalCrystal
  | _ => none

inductive Crc | Disabled | EnableWithXorOnRead | Enable
deriving DecidableEq, Fintype

def Crc.into_bits : Crc → Nat
  | .Disabled => 0x00
  | .EnableWithXorOnRead => 0x01
  | .Enable => 0x02

def Crc.from_bits : Nat → Option Crc
  | 0x00 => some .Disabled
  | 0x01 => some .EnableWithXorOnRead
  | 0x02 => some .Enable
  | _ => none

inductive DataRegisterLength | TwentyFourBits | SixteenBits
deriving DecidableEq, Fintype

def DataRegisterLength.into_bits : DataRegisterLength → Nat
  | .TwentyFourBits => 0x00
  | .SixteenBits => 0x01

def DataRegisterLength.from_bits : Nat → Option DataRegisterLength
  | 0x00 => some .TwentyFourBits
  | 0x01 => some .SixteenBits
  | _ => none

inductive SyncErrorPinMode | Disabled | ErrorInput | OpenDrainErrorOutput | ErrDataOutput
deriving DecidableEq, Fintype

def SyncErrorPinMode.into_bits : SyncErrorPinMode → Nat
  | .Disabled => 0x00
  | .ErrorInput => 0x01
  | .OpenDrainErrorOutput => 0x02
  | .ErrDataOutput => 0x03

def SyncErrorPinMode.from_bits : Nat → Option SyncErrorPinMode
  | 0x00 => some .Disabled
  | 0x01 => some .ErrorInput
  | 0x02 => some .OpenDrainErrorOutput
  | 0x03 => some .ErrDataOutput
  | _ => none

inductive Setup | Setup0 | Setup1 | Setup2 | Setup3
deriving DecidableEq, Fintype

def Setup.into_bits : Setup → Nat
  | .Setup0 => 0x00
  | .Setup1 => 0x01
  | .Setup2 => 0x02
  | .Setup3 => 0x03

def Setup.from_bits : Nat → Option Setup
  | 0x00 => some .Setup0
  | 0x01 => some .Setup1
  | 0x02 => some .Setup2
  | 0x03 => some .Setup3
  | _ => none

inductive Input
  | Analog0 | Analog1 | Analog2 | Analog3 | Analog4
  | TemperatureSensorPos | TemperatureSensorNeg
  | Avdd1AvssDiffOver5Pos | Avdd1AvssDiffOver5Neg
  | PositiveReferenceVoltage | NegativeReferenceVoltage
deriving DecidableEq, Fintype

def Input.into_bits : Input → Nat
  | .Analog0 => 0x00
  | .Analog1 => 0x01
  | .Analog2 => 0x02
  | .Analog3 => 0x03
  | .Analog4 => 0x04
  | .TemperatureSensorPos => 0x11
  | .TemperatureSensorNeg => 0x12
  | .Avdd1AvssDiffOver5Pos => 0x13
  | .Avdd1AvssDiffOver5Neg => 0x14
  | .PositiveReferenceVoltage => 0x15
  | .NegativeReferenceVoltage => 0x16

def Input.from_bits : Nat → Option Input
  | 0x00 => some .Analog0
  | 0x01 => some .Analog1
  | 0x02 => some .Analog2
  | 0x03 => some .Analog3
  | 0x04 => some .Analog4
  | 0x11 => some .TemperatureSensorPos
  | 0x12 => some .TemperatureSensorNeg
  | 0x13 => some .Avdd1AvssDiffOver5Pos
  | 0x14 => some .Avdd1AvssDiffOver5Neg
  | 0x15 => some .PositiveReferenceVoltage
  | 0x16 => some .NegativeReferenceVoltage
  | _ => none

inductive OutputCoding | Unipolar | Bipolar
deriving DecidableEq, Fintype

def OutputCoding.into_bits : OutputCoding → Nat
  | .Unipolar => 0x00
  | .Bipolar => 0x01

def OutputCoding.from_bits : Nat → Option OutputCoding
  | 0x00 => some .Unipolar
  | 0x01 => some .Bipolar
  | _ => none

inductive ReferenceSource | External | Internal | Avdd1AvssDiff
deriving DecidableEq, Fintype

def ReferenceSource.into_bits : ReferenceSource → Nat
  | .External => 0x00
  | .Internal => 0x01
  | .Avdd1AvssDiff => 0x02

def ReferenceSource.from_bits : Nat → Option ReferenceSource
  | 0x00 => some .External
  | 0x01 => some .Internal
  | 0x02 => some .Avdd1AvssDiff
  | _ => none

inductive EnhancedFilterRate | Sps27 | Sps25 | Sps20 | Sps16p67
deriving DecidableEq, Fintype

def EnhancedFilterRate.into_bits : EnhancedFilterRate → Nat
  | .Sps27 => 0x02
  | .Sps25 => 0x03
  | .Sps20 => 0x05
  | .Sps16p67 => 0x06

def EnhancedFilterRate.from_bits : Nat → Option EnhancedFilterRate
  | 0x02 => some .Sps27
  | 0x03 => some .Sps25
  | 0x05 => some .Sps20
  | 0x06 => some .Sps16p67
  | _ => none

inductive FilterOrder | Sinc5Sinc1 | Sinc3
deriving DecidableEq, Fintype

def FilterOrder.into_bits : FilterOrder → Nat
  | .Sinc5Sinc1 => 0x00
  | .Sinc3 => 0x03

def FilterOrder.from_bits : Nat → Option FilterOrder
  | 0x00 => some .Sinc5Sinc1
  | 0x03 => some .Sinc3
  | _ => none

inductive OutputDataRate
  | Sps250000 | Sps125000 | Sps62500 | Sps50000 | Sps31250 | Sps25000
  | Sps15625 | Sps10000 | Sps5000 | Sps2500 | Sps1000 | Sps500
  | Sps397p5 | Sps200 | Sps100 | Sps59p92 | Sps49p96 | Sps20
  | Sps16p67 | Sps10 | Sps5
deriving DecidableEq, Fintype

def OutputDataRate.into_bits : OutputDataRate → Nat
  | .Sps250000 => 0x00
  | .Sps125000 => 0x01
  | .Sps62500 => 0x02
  | .Sps50000 => 0x03
  | .Sps31250 => 0x04
  | .Sps25000 => 0x05
  | .Sps15625 => 0x06
  | .Sps10000 => 0x07
  | .Sps5000 => 0x08
  | .Sps2500 => 0x09
  | .Sps1000 => 0x0a
  | .Sps500 => 0x0b
  | .Sps397p5 => 0x0c
  | .Sps200 => 0x0d
  | .Sps100 => 0x0e
  | .Sps59p92 => 0x0f
  | .Sps49p96 => 0x10
  | .Sps20 => 0x11
  | .Sps16p67 => 0x12
  | .Sps10 => 0x13
  | .Sps5 => 0x14

def OutputDataRate.from_bits : Nat → Option OutputDataRate
  | 0x00 => some .Sps250000
  | 0x01 => some .Sps125000
  | 0x02 => some .Sps62500
  | 0x03 => some .Sps50000
  | 0x04 => some .Sps31250
  | 0x05 => some .Sps25000
  | 0x06 => some .Sps15625
  | 0x07 => some .Sps10000
  | 0x08 => some .Sps5000
  | 0x09 => some .Sps2500
  | 0x0a => some .Sps1000
  | 0x0b => some .Sps500
  | 0x0c => some .Sps397p5
  | 0x0d => some .Sps200
  | 0x0e => some .Sps100
  | 0x0f => some .Sps59p92
  | 0x10 => some .Sps49p96
  | 0x11 => some .Sps20
  | 0x12 => some .Sps16p67
  | 0x13 => some .Sps10
  | 0x14 => some .Sps5
  | _ => none

/-! ### Byte-buffer conversions

`register.rs` converts between the raw accumulator and the wire buffer with:
* 1-byte arm: `u8::to_ne_bytes` / `u8::from_ne_bytes`;
* 2-byte arm: `u16::to_ne_bytes` / `u16::from_ne_bytes`;
* 3-byte arm: the hand-written big-endian `from_u32` / `into_u32`;
* 4-byte arm: `u32::to_ne_bytes` / `u32::from_ne_bytes`.

The esp32 compilation targets are little-endian, so the native-endian
intrinsics are little-endian here. Buffers are `List Nat` of bytes; the
source's fixed-size array types guarantee the lengths, so the non-matching
arms below (returning 0) are unreachable for well-formed buffers. -/

def u8_to_ne_bytes (val : Nat) : List Nat := [val % 256]

def u8_from_ne_bytes : List Nat → Nat
  | [b0] => b0
  | _ => 0

def u16_to_ne_bytes (val : Nat) : List Nat := [val % 256, (val >>> 8) % 256]

def u16_from_ne_bytes : List Nat → Nat
  | [b0, b1] => b0 ||| (b1 <<< 8)
  | _ => 0

def u32_to_ne_bytes (val : Nat) : List Nat :=
  [val % 256, (val >>> 8) % 256, (val >>> 16) % 256, (val >>> 24) % 256]

def u32_from_ne_bytes : List Nat → Nat
  | [b0, b1, b2, b3] => b0 ||| (b1 <<< 8) ||| (b2 <<< 16) ||| (b3 <<< 24)
  | _ => 0

/-- `register.rs` lines 17-23: `const fn from_u32(val: u32) -> [u8; 3]`,
big-endian split of the low 24 bits (the `as u8` casts truncate). -/
def from_u32 (val : Nat) : List Nat :=
  [(val >>> 16) % 256, (val >>> 8) % 256, val % 256]

/-- `register.rs` lines 25-27: `const fn into_u32(slice: [u8; 3]) -> u32`,
big-endian reassembly into the low 24 bits of a `u32`. -/
def into_u32 : List Nat → Nat
  | [b0, b1, b2] => (b0 <<< 16) ||| (b1 <<< 8) ||| b2
  | _ => 0

/-! ### Register layouts

Each register's in-memory value is its raw accumulator (`Nat`, the
`bitfield_struct` base integer). `order = msb` allocates fields from the
most significant bit downward in declaration order; getters are shift+mask,
setters clear the field's bits and OR the masked value in, `new` is the
OR of the declared defaults in place. Enumeration getters call the enum's
`from_bits` (the aborting conversion, here `Option`). -/

namespace StatusRegister

/-- Field layout (1 byte, `order = msb`): ready@7, adc_error@6, crc_error@5,
register_error@4, reserved@3..2, channel@1..0. Default: ready = true. -/
def new : Nat := 0x80

def ready (raw : Nat) : Bool := ((raw >>> 7) &&& 1) != 0

def adc_error (raw : Nat) : Bool := ((raw >>> 6) &&& 1) != 0

def crc_error (raw : Nat) : Bool := ((raw >>> 5) &&& 1) != 0

def register_error (raw : Nat) : Bool := ((raw >>> 4) &&& 1) != 0

def channel (raw : Nat) : Option Channel := Channel.from_bits (raw &&& 0x3)

def from_buffer (b : List Nat) : Nat := u8_from_ne_bytes b

end StatusRegister

namespace AdcModeRegister

/-- Field layout (2 bytes, `order = msb`): ref_enable@15, hide_delay@14,
sing_cyc@13, reserved@12..11, delay@10..8, reserved@7, mode@6..4,
clksel@3..2, reserved@1..0. Default: ref_enable = true. -/
def new : Nat := 0x8000

def ref_enable (raw : Nat) : Bool := ((raw >>> 15) &&& 1) != 0

def hide_delay (raw : Nat) : Bool := ((raw >>> 14) &&& 1) != 0

def sing_cyc (raw : Nat) : Bool := ((raw >>> 13) &&& 1) != 0

def delay (raw : Nat) : Option Delay := Delay.from_bits ((raw >>> 8) &&& 0x7)

def mode (raw : Nat) : Option Mode := Mode.from_bits ((raw >>> 4) &&& 0x7)

def clksel (raw : Nat) : Option ClockSource := ClockSource.from_bits ((raw >>> 2) &&& 0x3)

def from_buffer (b : List Nat) : Nat := u16_from_ne_bytes b

def to_buffer (raw : Nat) : List Nat := u16_to_ne_bytes raw

end AdcModeRegister

namespace IdRegister

/-- Field layout (2 bytes): id@15..0, default 0x0cd0. Read-only. -/
def new : Nat := 0x0cd0

def id (raw : Nat) : Nat := raw &&& 0xFFFF

def from_buffer (b : List Nat) : Nat := u16_from_ne_bytes b

end IdRegister

namespace OffsetRegister

/-- Field layout (3-byte arm, u32 base, `order = msb`): the macro appends an
8-bit padding field after the declared fields, so offset occupies bits 31..8
and the padding bits 7..0. Default offset = 0x800000, stored shifted into
bits 31..8, hence raw 0x80000000. -/
def with_offset (raw v : Nat) : Nat :=
  (raw &&& 0xFF) ||| ((v &&& 0xFFFFFF) <<< 8)

def new : Nat := with_offset 0 0x800000

def offset (raw : Nat) : Nat := (raw >>> 8) &&& 0xFFFFFF

/-- Encoder of the 3-byte arm: `into = from_u32` splits the low 24 bits of
the accumulator big-endian (`to_buffer`, where generated, delegates here). -/
def into_bits (raw : Nat) : List Nat := from_u32 raw

def from_buffer (b : List Nat) : Nat := into_u32 b

end OffsetRegister

namespace DataAndStatusRegister

/-- Field layout (4-byte `register!` arm, u32 base, `order = msb`):
data@31..8 (24 bits), status@7..0 (8 bits). Read-only (no defaults
declared, so `new` is 0). The 4-byte arm converts with
`u32::to_ne_bytes` / `u32::from_ne_bytes`. -/
def new : Nat := 0x00000000

def data (raw : Nat) : Nat := (raw >>> 8) &&& 0xFFFFFF

def status (raw : Nat) : Nat := raw &&& 0xFF

def from_buffer (b : List Nat) : Nat := u32_from_ne_bytes b

end DataAndStatusRegister

namespace DefaultFilterConfigRegister

/-- Field layout (2 bytes, `order = msb`): sinc3_map@15 (read-only, default
false), reserved@14..12, enhfilten@11, enhfilt@10..8 (default Sps20 = 5),
reserved@7, order@6..5, odr@4..0. Hence default raw = 0x0500. No setter is
generated for the read-only sinc3_map bit. -/
def new : Nat := 0x0500

def sinc3_map (raw : Nat) : Bool := ((raw >>> 15) &&& 1) != 0

def enhfilten (raw : Nat) : Bool := ((raw >>> 11) &&& 1) != 0

def enhfilt (raw : Nat) : Option EnhancedFilterRate :=
  EnhancedFilterRate.from_bits ((raw >>> 8) &&& 0x7)

def order (raw : Nat) : Option FilterOrder := FilterOrder.from_bits ((raw >>> 5) &&& 0x3)

def odr (raw : Nat) : Option OutputDataRate := OutputDataRate.from_bits (raw &&& 0x1F)

/-- Setter for enhfilten: clear bit 11 (u16 complement of `1 << 11` is
0xF7FF) and OR the boolean in. -/
def with_enhfilten (raw : Nat) (b : Bool) : Nat :=
  (raw &&& 0xF7FF) ||| ((if b then 1 else 0) <<< 11)

/-- Setter for enhfilt: clear bits 10..8 (u16 complement of `0x7 << 8` is
0xF8FF) and OR the masked discriminant in. -/
def with_enhfilt (raw : Nat) (v : EnhancedFilterRate) : Nat :=
  (raw &&& 0xF8FF) ||| ((v.into_bits &&& 0x7) <<< 8)

/-- Setter for order: clear bits 6..5 (u16 complement of `0x3 << 5` is
0xFF9F) and OR the masked discriminant in. -/
def with_order (raw : Nat) (v : FilterOrder) : Nat :=
  (raw &&& 0xFF9F) ||| ((v.into_bits &&& 0x3) <<< 5)

/-- Setter for odr: clear bits 4..0 (u16 complement of 0x1F is 0xFFE0) and
OR the masked discriminant in. -/
def with_odr (raw : Nat) (v : OutputDataRate) : Nat :=
  (raw &&& 0xFFE0) ||| (v.into_bits &&& 0x1F)

def from_buffer (b : List Nat) : Nat := u16_from_ne_bytes b

/-- Encoder of the 2-byte arm: `into = u16::to_ne_bytes`. -/
def into_bits (raw : Nat) : List Nat := u16_to_ne_bytes raw

end DefaultFilterConfigRegister

namespace DirectSinc3MapFilterConfigRegister

/-- Field layout (2 bytes, `order = msb`): sinc3_map@15 (read-only, default
true), decimation_rate@14..0. Hence default raw = 0x8000. No setter is
generated for the read-only sinc3_map bit. -/
def new : Nat := 0x8000

def sinc3_map (raw : Nat) : Bool := ((raw >>> 15) &&& 1) != 0

def decimation_rate (raw : Nat) : Nat := raw &&& 0x7FFF

/-- Setter for decimation_rate: clear bits 14..0 (u16 complement of 0x7FFF
is 0x8000) and OR the masked value in. -/
def with_decimation_rate (raw v : Nat) : Nat :=
  (raw &&& 0x8000) ||| (v &&& 0x7FFF)

def from_buffer (b : List Nat) : Nat := u16_from_ne_bytes b

/-- Encoder of the 2-byte arm: `into = u16::to_ne_bytes`. -/
def into_bits (raw : Nat) : List Nat := u16_to_ne_bytes raw

end DirectSinc3MapFilterConfigRegister

/-! ### Transport framer (`src/adc/mod.rs`, `ADC`) -/

/-- `RegisterRW::Read` discriminant. -/
def RegisterRW_Read : Nat := 0x40

/-- `RegisterRW::Write` discriminant. -/
def RegisterRW_Write : Nat := 0x00

/-- `ADC::read` line 48: `self.buf[0] = id | RegisterRW::Read as u8`. -/
def read_command (id : Nat) : Nat := id ||| RegisterRW_Read

/-- `ADC::write` line 63: `self.buf[0] = id | RegisterRW::Write as u8`. -/
def write_command (id : Nat) : Nat := id ||| RegisterRW_Write

/-- The `ADC` driver state: the reusable 6-byte scratch buffer. The SPI bus
handle is passed separately as a function (see `ADC.read`). -/
structure ADCState where
  buf : List Nat

/-- Fresh driver (`ADC::new`): zeroed 6-byte scratch buffer. -/
def ADCState.new : ADCState := ⟨[0, 0, 0, 0, 0, 0]⟩

/-- `ADC::read::<N, T>`: overwrite `buf[0]` with the read command byte, run
one full-duplex `transfer_in_place` on `buf[..N+1]` (the bus replaces the
transmitted bytes with the received ones, or fails), then decode the
trailing `N` bytes `buf[1..N+1]` with `T::from_buffer`.

The bus is a function from the transmitted frame to `Except ε` of the
received frame. Besides the result and the updated driver state, the model
returns the list of frames put on the bus by this call, so that "exactly one
exchange, no retry" is a provable statement. -/
def ADC.read {ε R : Type} (spi : List Nat → Except ε (List Nat))
    (from_buffer : List Nat → R) (N id : Nat) (adc : ADCState) :
    Except ε R × ADCState × List (List Nat) :=
  let buf1 := read_command id :: adc.buf.tail
  let tx := buf1.take (N + 1)
  match spi tx with
  | .error e => (.error e, ⟨buf1⟩, [tx])
  | .ok rx =>
    let buf2 := rx ++ buf1.drop (N + 1)
    (.ok (from_buffer ((buf2.drop 1).take N)), ⟨buf2⟩, [tx])

/-! ### Register catalog addresses

Every `get_id` value declared in `register.rs`, in declaration order:
Status 0x00, AdcMode 0x01, InterfaceMode 0x02, RegisterCheck 0x03,
Data 0x04, DataAndStatus 0x04, GPIOConfig 0x06, Id 0x07, Channel0..3
0x10..0x13, SetupConfig0..3 0x20..0x23, DefaultFilterConfig0..3 0x28..0x2b,
DirectSinc3MapFilterConfig0..3 0x28..0x2b, Offset0..3 0x30..0x33,
Gain0..3 0x38..0x3b. -/
def catalog_addresses : List Nat :=
  [0x00, 0x01, 0x02, 0x03, 0x04, 0x04, 0x06, 0x07,
   0x10, 0x11, 0x12, 0x13,
   0x20, 0x21, 0x22, 0x23,
   0x28, 0x29, 0x2a, 0x2b,
   0x28, 0x29, 0x2a, 0x2b,
   0x30, 0x31, 0x32, 0x33,
   0x38, 0x39, 0x3a, 0x3b]

/-! ### Setter sequences for the two filter-config layouts

The only public mutators `bitfield_struct` generates for the two layouts
(sinc3_map is `access = RO` in both, so it has none). -/

inductive DefaultFilterSetter where
  | enhfilten (b : Bool)
  | enhfilt (v : EnhancedFilterRate)
  | order (v : FilterOrder)
  | odr (v : OutputDataRate)

def applyDefaultFilterSetter (raw : Nat) : DefaultFilterSetter → Nat
  | .enhfilten b => DefaultFilterConfigRegister.with_enhfilten raw b
  | .enhfilt v => DefaultFilterConfigRegister.with_enhfilt raw v
  | .order v => DefaultFilterConfigRegister.with_order raw v
  | .odr v => DefaultFilterConfigRegister.with_odr raw v

/-- The value built by `DefaultFilterConfigRegister::new()` followed by an
arbitrary sequence of field setter calls. -/
def runDefaultFilterSetters (l : List DefaultFilterSetter) : Nat :=
  l.foldl applyDefaultFilterSetter DefaultFilterConfigRegister.new

inductive DirectSinc3Setter where
  | decimation_rate (v : Nat)

def applyDirectSinc3Setter (raw : Nat) : DirectSinc3Setter → Nat
  | .decimation_rate v => DirectSinc3MapFilterConfigRegister.with_decimation_rate raw v

/-- The value built by `DirectSinc3MapFilterConfigRegister::new()` followed
by an arbitrary sequence of field setter calls. -/
def runDirectSinc3Setters (l : List DirectSinc3Setter) : Nat :=
  l.foldl applyDirectSinc3Setter DirectSinc3MapFilterConfigRegister.new

/-- The frame `ADC::read` puts on the bus: the read command byte followed by
the next `N` scratch-buffer bytes (the don't-care filler). -/
def read_frame (N id : Nat) (adc : ADCState) : List Nat :=
  read_command id :: adc.buf.tail.take N

/-- A concrete bus for the witness: answers every frame with 0xAB bytes. -/
def demo_spi : List Nat → Except Unit (List Nat) :=
  fun t => .ok (t.map fun _ => 0xAB)

/-! ### Claim theorems -/

set_option maxRecDepth 8192

/-- C1: the encode/decode round trip fails on the code for 3-byte layouts.
The Offset register constructed at its declared default (offset = 0x800000,
a value within the field's 24-bit range) encodes and decodes back to
offset = 0: the `msb`-ordered layout places the 24-bit field in bits 31..8
of the u32 accumulator (the macro's 8-bit padding is declared after the
fields), while `from_u32`/`into_u32` move bits 23..0 to and from the wire,
so the top 8 bits of the field are dropped. -/
theorem offset_roundtrip_loses_high_byte :
    OffsetRegister.offset OffsetRegister.new = 0x800000 ∧
    OffsetRegister.offset
      (OffsetRegister.from_buffer (OffsetRegister.into_bits OffsetRegister.new)) = 0 := by
  decide

/-- C2: multi-byte buffer order in the code is not uniformly MSB-first.
The 2-byte arm uses `u16::to_ne_bytes`, little-endian on the esp32 target:
encoding the default ADC Mode value (16-bit word 0x8000) puts the
least-significant byte first, `[0x00, 0x80]`, so the first byte holds bits
7..0, not bits 15..8. Only the hand-written 3-byte arm is big-endian. -/
theorem two_byte_encode_least_significant_first :
    AdcModeRegister.new = 0x8000 ∧
    AdcModeRegister.to_buffer AdcModeRegister.new = [0x00, 0x80] ∧
    OffsetRegister.into_bits 0x123456 = [0x12, 0x34, 0x56] := by
  decide

/-- C3: encoding the Offset register built with its default field value
offset = 0x800000 produces `[0x00, 0x00, 0x00]`, not the specified
`[0x80, 0x00, 0x00]`: the default is stored in accumulator bits 31..8
(raw 0x80000000) but the encoder emits accumulator bits 23..0. -/
theorem offset_default_encodes_to_zero_bytes :
    OffsetRegister.offset OffsetRegister.new = 0x800000 ∧
    OffsetRegister.into_bits OffsetRegister.new = [0x00, 0x00, 0x00] := by
  decide

/-- C4: for every register address declared in the catalog (0x00-0x3B), the
Read command byte is the address OR 0x40 and the Write command byte is the
address unchanged; bit 7 of both command bytes is zero, bit 6 is the
direction flag, and bits 5..0 (value mod 64) equal the address. -/
theorem command_byte_construction :
    catalog_addresses.all (fun a =>
      (read_command a == (a ||| 0x40)) &&
      (write_command a == a) &&
      (!(read_command a).testBit 7) &&
      (!(write_command a).testBit 7) &&
      ((read_command a).testBit 6) &&
      (!(write_command a).testBit 6) &&
      (read_command a % 64 == a) &&
      (write_command a % 64 == a)) = true := by
  decide

/-- C7: decoding the single byte 0x80 as a Status register yields
ready = true, adc_error = false, crc_error = false, register_error = false
and channel = Ch0 (fields packed MSB-first in declaration order: ready at
bit 7, channel at bits 1..0). -/
theorem status_decode_0x80 :
    StatusRegister.ready (StatusRegister.from_buffer [0x80]) = true ∧
    StatusRegister.adc_error (StatusRegister.from_buffer [0x80]) = false ∧
    StatusRegister.crc_error (StatusRegister.from_buffer [0x80]) = false ∧
    StatusRegister.register_error (StatusRegister.from_buffer [0x80]) = false ∧
    StatusRegister.channel (StatusRegister.from_buffer [0x80]) = some Channel.Ch0 := by
  decide

/-- C9: buffer decoding is total and performs no validation, across all four
`register!` arms (1-, 2-, 3- and 4-byte): for every byte buffer of the
declared width, `from_buffer` just reassembles the raw accumulator and
always yields a register value. The decode fault for an out-of-set
enumeration discriminant occurs only when the field accessor is invoked:
the ADC Mode buffer `[0x50, 0x00]` decodes fine (raw word 0x50, mode
bits = 5), and only the `mode` accessor then faults, 5 not being a declared
`Mode` discriminant. -/
theorem from_buffer_total_fault_only_at_accessor :
    (∀ b0 : Nat, StatusRegister.from_buffer [b0] = b0) ∧
    (∀ b0 b1 : Nat, AdcModeRegister.from_buffer [b0, b1] = b0 ||| (b1 <<< 8)) ∧
    (∀ b0 b1 : Nat, IdRegister.from_buffer [b0, b1] = b0 ||| (b1 <<< 8)) ∧
    (∀ b0 b1 : Nat, DefaultFilterConfigRegister.from_buffer [b0, b1] = b0 ||| (b1 <<< 8)) ∧
    (∀ b0 b1 : Nat, DirectSinc3MapFilterConfigRegister.from_buffer [b0, b1] = b0 ||| (b1 <<< 8)) ∧
    (∀ b0 b1 b2 : Nat,
      OffsetRegister.from_buffer [b0, b1, b2] = (b0 <<< 16) ||| (b1 <<< 8) ||| b2) ∧
    (∀ b0 b1 b2 b3 : Nat,
      DataAndStatusRegister.from_buffer [b0, b1, b2, b3]
        = b0 ||| (b1 <<< 8) ||| (b2 <<< 16) ||| (b3 <<< 24)) ∧
    AdcModeRegister.from_buffer [0x50, 0x00] = 0x50 ∧
    AdcModeRegister.mode (AdcModeRegister.from_buffer [0x50, 0x00]) = none :=
  ⟨fun _ => rfl, fun _ _ => rfl, fun _ _ => rfl, fun _ _ => rfl, fun _ _ => rfl,
   fun _ _ _ => rfl, fun _ _ _ _ => rfl, rfl, rfl⟩

/-- C5: for every closed enumeration in the catalog and every 8-bit integer
(the repr of every enumeration is u8), `from_bits` yields a decode fault
(modelled `none`) exactly when the integer is not the declared discriminant
(`into_bits` image) of any variant — no silent coercion. -/
theorem enum_from_bits_closure :
    (∀ n : Fin 256, (Channel.from_bits n.val = none ↔
      ∀ c : Channel, Channel.into_bits c ≠ n.val)) ∧
    (∀ n : Fin 256, (Delay.from_bits n.val = none ↔
      ∀ c : Delay, Delay.into_bits c ≠ n.val)) ∧
    (∀ n : Fin 256, (Mode.from_bits n.val = none ↔
      ∀ c : Mode, Mode.into_bits c ≠ n.val)) ∧
    (∀ n : Fin 256, (ClockSource.from_bits n.val = none ↔
      ∀ c : ClockSource, ClockSource.into_bits c ≠ n.val)) ∧
    (∀ n : Fin 256, (Crc.from_bits n.val = none ↔
      ∀ c : Crc, Crc.into_bits c ≠ n.val)) ∧
    (∀ n : Fin 256, (DataRegisterLength.from_bits n.val = none ↔
      ∀ c : DataRegisterLength, DataRegisterLength.into_bits c ≠ n.val)) ∧
    (∀ n : Fin 256, (SyncErrorPinMode.from_bits n.val = none ↔
      ∀ c : SyncErrorPinMode, SyncErrorPinMode.into_bits c ≠ n.val)) ∧
    (∀ n : Fin 256, (Setup.from_bits n.val = none ↔
      ∀ c : Setup, Setup.into_bits c ≠ n.val)) ∧
    (∀ n : Fin 256, (Input.from_bits n.val = none ↔
      ∀ c : Input, Input.into_bits c ≠ n.val)) ∧
    (∀ n : Fin 256, (OutputCoding.from_bits n.val = none ↔
      ∀ c : OutputCoding, OutputCoding.into_bits c ≠ n.val)) ∧
    (∀ n : Fin 256, (ReferenceSource.from_bits n.val = none ↔
      ∀ c : ReferenceSource, ReferenceSource.into_bits c ≠ n.val)) ∧
    (∀ n : Fin 256, (EnhancedFilterRate.from_bits n.val = none ↔
      ∀ c : EnhancedFilterRate, EnhancedFilterRate.into_bits c ≠ n.val)) ∧
    (∀ n : Fin 256, (FilterOrder.from_bits n.val = none ↔
      ∀ c : FilterOrder, FilterOrder.into_bits c ≠ n.val)) ∧
    (∀ n : Fin 256, (OutputDataRate.from_bits n.val = none ↔
      ∀ c : OutputDataRate, OutputDataRate.into_bits c ≠ n.val)) :=
  ⟨by decide, by decide, by decide, by decide, by decide, by decide, by decide,
   by decide, by decide, by decide, by decide, by decide, by decide, by decide⟩

/-- C8: `into_bits` of every variant of every closed enumeration is exactly
the chip-defined discriminant of the catalog; in particular
FilterOrder.Sinc5Sinc1 encodes to 0 and FilterOrder.Sinc3 to 3 (not 1), and
0 and 3 are FilterOrder's only declared discriminants. -/
theorem enum_into_bits_discriminants :
    Channel.into_bits .Ch0 = 0x00 ∧ Channel.into_bits .Ch1 = 0x01 ∧
    Channel.into_bits .Ch2 = 0x02 ∧ Channel.into_bits .Ch3 = 0x03 ∧
    Delay.into_bits .ZeroMicroseconds = 0x00 ∧
    Delay.into_bits .FourMicroseconds = 0x01 ∧
    Delay.into_bits .SixteenMicroseconds = 0x02 ∧
    Delay.into_bits .FortyMicroseconds = 0x03 ∧
    Delay.into_bits .OneHundredMicroseconds = 0x04 ∧
    Delay.into_bits .TwoHundredMicroseconds = 0x05 ∧
    Delay.into_bits .FiveHundredMicroseconds = 0x06 ∧
    Delay.into_bits .OneMillisecond = 0x07 ∧
    Mode.into_bits .ContinuousConversion = 0x00 ∧
    Mode.into_bits .SingleConversion = 0x01 ∧
    Mode.into_bits .Standby = 0x02 ∧
    Mode.into_bits .PowerDown = 0x03 ∧
    Mode.into_bits .InternalOffsetCalibration = 0x04 ∧
    Mode.into_bits .SystemOffsetCalibration = 0x06 ∧
    Mode.into_bits .SystemGainCalibration = 0x07 ∧
    ClockSource.into_bits .Internal = 0x00 ∧
    ClockSource.into_bits .InternalWithOutput = 0x01 ∧
    ClockSource.into_bits .External = 0x02 ∧
    ClockSource.into_bits .ExternalCrystal = 0x03 ∧
    Crc.into_bits .Disabled = 0x00 ∧
    Crc.into_bits .EnableWithXorOnRead = 0x01 ∧
    Crc.into_bits .Enable = 0x02 ∧
    DataRegisterLength.into_bits .TwentyFourBits = 0x00 ∧
    DataRegisterLength.into_bits .SixteenBits = 0x01 ∧
    SyncErrorPinMode.into_bits .Disabled = 0x00 ∧
    SyncErrorPinMode.into_bits .ErrorInput = 0x01 ∧
    SyncErrorPinMode.into_bits .OpenDrainErrorOutput = 0x02 ∧
    SyncErrorPinMode.into_bits .ErrDataOutput = 0x03 ∧
    Setup.into_bits .Setup0 = 0x00 ∧ Setup.into_bits .Setup1 = 0x01 ∧
    Setup.into_bits .Setup2 = 0x02 ∧ Setup.into_bits .Setup3 = 0x03 ∧
    Input.into_bits .Analog0 = 0x00 ∧ Input.into_bits .Analog1 = 0x01 ∧
    Input.into_bits .Analog2 = 0x02 ∧ Input.into_bits .Analog3 = 0x03 ∧
    Input.into_bits .Analog4 = 0x04 ∧
    Input.into_bits .TemperatureSensorPos = 0x11 ∧
    Input.into_bits .TemperatureSensorNeg = 0x12 ∧
    Input.into_bits .Avdd1AvssDiffOver5Pos = 0x13 ∧
    Input.into_bits .Avdd1AvssDiffOver5Neg = 0x14 ∧
    Input.into_bits .PositiveReferenceVoltage = 0x15 ∧
    Input.into_bits .NegativeReferenceVoltage = 0x16 ∧
    OutputCoding.into_bits .Unipolar = 0x00 ∧
    OutputCoding.into_bits .Bipolar = 0x01 ∧
    ReferenceSource.into_bits .External = 0x00 ∧
    ReferenceSource.into_bits .Internal = 0x01 ∧
    ReferenceSource.into_bits .Avdd1AvssDiff = 0x02 ∧
    EnhancedFilterRate.into_bits .Sps27 = 0x02 ∧
    EnhancedFilterRate.into_bits .Sps25 = 0x03 ∧
    EnhancedFilterRate.into_bits .Sps20 = 0x05 ∧
    EnhancedFilterRate.into_bits .Sps16p67 = 0x06 ∧
    FilterOrder.into_bits .Sinc5Sinc1 = 0x00 ∧
    FilterOrder.into_bits .Sinc3 = 0x03 ∧
    (∀ f : FilterOrder, FilterOrder.into_bits f = 0x00 ∨ FilterOrder.into_bits f = 0x03) ∧
    OutputDataRate.into_bits .Sps250000 = 0x00 ∧
    OutputDataRate.into_bits .Sps125000 = 0x01 ∧
    OutputDataRate.into_bits .Sps62500 = 0x02 ∧
    OutputDataRate.into_bits .Sps50000 = 0x03 ∧
    OutputDataRate.into_bits .Sps31250 = 0x04 ∧
    OutputDataRate.into_bits .Sps25000 = 0x05 ∧
    OutputDataRate.into_bits .Sps15625 = 0x06 ∧
    OutputDataRate.into_bits .Sps10000 = 0x07 ∧
    OutputDataRate.into_bits .Sps5000 = 0x08 ∧
    OutputDataRate.into_bits .Sps2500 = 0x09 ∧
    OutputDataRate.into_bits .Sps1000 = 0x0a ∧
    OutputDataRate.into_bits .Sps500 = 0x0b ∧
    OutputDataRate.into_bits .Sps397p5 = 0x0c ∧
    OutputDataRate.into_bits .Sps200 = 0x0d ∧
    OutputDataRate.into_bits .Sps100 = 0x0e ∧
    OutputDataRate.into_bits .Sps59p92 = 0x0f ∧
    OutputDataRate.into_bits .Sps49p96 = 0x10 ∧
    OutputDataRate.into_bits .Sps20 = 0x11 ∧
    OutputDataRate.into_bits .Sps16p67 = 0x12 ∧
    OutputDataRate.into_bits .Sps10 = 0x13 ∧
    OutputDataRate.into_bits .Sps5 = 0x14 := by
  and_intros <;> try rfl
  intro f
  cases f
  · exact Or.inl rfl
  · exact Or.inr rfl

/-! ### Helper lemmas for the transport and selector-bit claims -/

theorem masked_or_preserves_testBit15 (raw m c : Nat) (hm : m.testBit 15 = true)
    (hc : c < 2 ^ 15) : ((raw &&& m) ||| c).testBit 15 = raw.testBit 15 := by
  rw [Nat.testBit_lor, Nat.testBit_land, hm, Nat.testBit_lt_two_pow hc,
    Bool.and_true, Bool.or_false]

theorem masked_shift_lt (x k s B : Nat) (h : k * 2 ^ s < B) : (x &&& k) <<< s < B := by
  rw [Nat.shiftLeft_eq]
  exact lt_of_le_of_lt (Nat.mul_le_mul Nat.and_le_right (le_refl _)) h

/-- The little-endian split/reassemble pair of the 2-byte arm preserves
bit 15 of the accumulator. -/
theorem u16_codec_testBit15 (raw : Nat) :
    (u16_from_ne_bytes (u16_to_ne_bytes raw)).testBit 15 = raw.testBit 15 := by
  show ((raw % 256) ||| (((raw >>> 8) % 256) <<< 8)).testBit 15 = _
  rw [Nat.testBit_lor, Nat.testBit_lt_two_pow (by omega : raw % 256 < 2 ^ 15),
    Nat.testBit_shiftLeft, (by norm_num : (256 : Nat) = 2 ^ 8), Nat.testBit_mod_two_pow,
    Nat.testBit_shiftRight]
  norm_num

theorem applyDirectSinc3Setter_testBit15 (raw : Nat) (s : DirectSinc3Setter) :
    (applyDirectSinc3Setter raw s).testBit 15 = raw.testBit 15 := by
  cases s with
  | decimation_rate v =>
    apply masked_or_preserves_testBit15 _ _ _ (by decide)
    exact lt_of_le_of_lt Nat.and_le_right (by decide)

theorem applyDefaultFilterSetter_testBit15 (raw : Nat) (s : DefaultFilterSetter) :
    (applyDefaultFilterSetter raw s).testBit 15 = raw.testBit 15 := by
  cases s with
  | enhfilten b =>
    apply masked_or_preserves_testBit15 _ _ _ (by decide)
    cases b <;> decide
  | enhfilt v =>
    apply masked_or_preserves_testBit15 _ _ _ (by decide)
    exact masked_shift_lt _ _ _ _ (by decide)
  | order v =>
    apply masked_or_preserves_testBit15 _ _ _ (by decide)
    exact masked_shift_lt _ _ _ _ (by decide)
  | odr v =>
    apply masked_or_preserves_testBit15 _ _ _ (by decide)
    exact lt_of_le_of_lt Nat.and_le_right (by decide)

theorem foldl_direct_testBit15 (l : List DirectSinc3Setter) (raw : Nat) :
    (l.foldl applyDirectSinc3Setter raw).testBit 15 = raw.testBit 15 := by
  induction l generalizing raw with
  | nil => rfl
  | cons s t ih => rw [List.foldl_cons, ih, applyDirectSinc3Setter_testBit15]

theorem foldl_default_testBit15 (l : List DefaultFilterSetter) (raw : Nat) :
    (l.foldl applyDefaultFilterSetter raw).testBit 15 = raw.testBit 15 := by
  induction l generalizing raw with
  | nil => rfl
  | cons s t ih => rw [List.foldl_cons, ih, applyDefaultFilterSetter_testBit15]

/-- The generated boolean getter `(raw >> 15) & 1 != 0` is `Nat.testBit 15`. -/
theorem bit15_getter (raw : Nat) : (((raw >>> 15) &&& 1) != 0) = raw.testBit 15 := by
  simp [Nat.testBit, Nat.and_comm]

/-- C6: a Read of an N-byte register performs exactly one full-duplex
exchange (the returned frame trace is one frame) of 1 + N bytes whose first
transmitted byte is the command byte `id ||| 0x40`; on bus failure the
transport error is returned unchanged (still exactly one frame — no retry);
on success the register value is decoded from exactly the trailing N bytes
captured by that exchange. -/
theorem adc_read_single_exchange {ε R : Type} (spi : List Nat → Except ε (List Nat))
    (fb : List Nat → R) (N id : Nat) (adc : ADCState)
    (hbuf : adc.buf.length = 6) (hN : N ≤ 4) :
    (ADC.read spi fb N id adc).2.2 = [read_frame N id adc] ∧
    (read_frame N id adc).length = N + 1 ∧
    (read_frame N id adc).head? = some (id ||| 0x40) ∧
    (∀ e, spi (read_frame N id adc) = .error e →
      (ADC.read spi fb N id adc).1 = .error e) ∧
    (∀ rx, spi (read_frame N id adc) = .ok rx → rx.length = N + 1 →
      (rx.drop 1).length = N ∧ (ADC.read spi fb N id adc).1 = .ok (fb (rx.drop 1))) := by
  have htake : (read_command id :: adc.buf.tail).take (N + 1) = read_frame N id adc := rfl
  refine ⟨?_, ?_, ?_, ?_, ?_⟩
  · simp only [ADC.read]
    rw [htake]
    cases h : spi (read_frame N id adc) <;> rfl
  · show (read_command id :: adc.buf.tail.take N).length = N + 1
    simp only [List.length_cons, List.length_take, List.length_tail, hbuf]
    omega
  · rfl
  · intro e he
    simp only [ADC.read]
    rw [htake, he]
  · intro rx hrx hlenrx
    have hd : (rx.drop 1).length = N := by
      simp [List.length_drop, hlenrx]
    refine ⟨hd, ?_⟩
    simp only [ADC.read]
    rw [htake, hrx]
    show Except.ok
        (fb (((rx ++ (read_command id :: adc.buf.tail).drop (N + 1)).drop 1).take N)) = _
    rw [List.drop_append_of_le_length (by omega), List.take_left' hd]

/-- Witness for C6: reading the 2-byte Id register (address 0x07) on a fresh
driver over `demo_spi` puts exactly the frame `[0x47, 0x00, 0x00]` on the
bus and decodes the two trailing response bytes. -/
theorem adc_read_single_exchange_witness :
    (ADC.read demo_spi u16_from_ne_bytes 2 0x07 ADCState.new).2.2 = [[0x47, 0x00, 0x00]] ∧
    (ADC.read demo_spi u16_from_ne_bytes 2 0x07 ADCState.new).1 =
      .ok (u16_from_ne_bytes [0xAB, 0xAB]) := by
  obtain ⟨h1, h2, h3, h4, h5⟩ :=
    adc_read_single_exchange demo_spi u16_from_ne_bytes 2 0x07 ADCState.new rfl (by decide)
  exact ⟨by rw [h1]; rfl, (h5 [0xAB, 0xAB, 0xAB] rfl rfl).2⟩

/-- C10: the sinc3_map layout-selector bit (bit 15 of the 16-bit word) is
read-only at the type level — neither filter-config layout has a setter for
it — so every value built by `new()` followed by any sequence of field
setter calls keeps it at its layout's default: a DirectSinc3MapFilterConfig
register always encodes with bit 15 = 1 and a DefaultFilterConfig register
always encodes with bit 15 = 0. -/
theorem filter_config_selector_bit_fixed :
    (∀ l : List DirectSinc3Setter,
      DirectSinc3MapFilterConfigRegister.sinc3_map (runDirectSinc3Setters l) = true ∧
      (u16_from_ne_bytes
        (DirectSinc3MapFilterConfigRegister.into_bits (runDirectSinc3Setters l))).testBit 15
        = true) ∧
    (∀ l : List DefaultFilterSetter,
      DefaultFilterConfigRegister.sinc3_map (runDefaultFilterSetters l) = false ∧
      (u16_from_ne_bytes
        (DefaultFilterConfigRegister.into_bits (runDefaultFilterSetters l))).testBit 15
        = false) := by
  constructor
  · intro l
    have h : (runDirectSinc3Setters l).testBit 15 = true := by
      rw [runDirectSinc3Setters, foldl_direct_testBit15]
      decide
    refine ⟨?_, ?_⟩
    · rw [DirectSinc3MapFilterConfigRegister.sinc3_map, bit15_getter, h]
    · rw [DirectSinc3MapFilterConfigRegister.into_bits, u16_codec_testBit15, h]
  · intro l
    have h : (runDefaultFilterSetters l).testBit 15 = false := by
      rw [runDefaultFilterSetters, foldl_default_testBit15]
      decide
    refine ⟨?_, ?_⟩
    · rw [DefaultFilterConfigRegister.sinc3_map, bit15_getter, h]
    · rw [DefaultFilterConfigRegister.into_bits, u16_codec_testBit15, h]

end DcLoad
